import Mathlib

/-!
Verification development for the WhatsApp Green-API / Supabase bot.

This file shallowly embeds the two core components of the repository —
the rule-based intent engine (`app/services/intent_engine.py`) and the
LLM-council consensus engine (`app/services/council_client.py`) — plus the
monthly-count branch of the webhook router (`app/routes/webhook.py`), and
proves properties of the embedded definitions.

Python regular expressions are embedded by a small executable backtracking
regex interpreter (leftmost search, left-biased alternation, greedy/lazy
repetition, named capture groups, word boundaries), and every pattern of the
source is transcribed into its AST.  The character classes `\w`, `\s`, `\d`
are modelled over the alphabet the program actually processes (ASCII plus
the Hebrew letter block); `.` matches any character except a newline, as in
Python without `re.DOTALL`.
-/

/-- Digit test for Python `\d` (ASCII digits). -/
def isDigitChar (c : Char) : Bool :=
  48 ≤ c.toNat && c.toNat ≤ 57

/-- Numeric value of an ASCII digit character. -/
def digitVal (c : Char) : Nat := c.toNat - 48

/-- Whitespace test for Python `\s` (ASCII whitespace). -/
def isSpaceChar (c : Char) : Bool :=
  c.toNat == 32 || c.toNat == 9 || c.toNat == 10 ||
  c.toNat == 13 || c.toNat == 11 || c.toNat == 12

/-- Word-character test for Python `\b` / `\w`, over the alphabet this
program processes: ASCII letters, digits, underscore, and the Hebrew
letter block U+05D0..U+05EA. -/
def isWordChar (c : Char) : Bool :=
  (97 ≤ c.toNat && c.toNat ≤ 122) || (65 ≤ c.toNat && c.toNat ≤ 90) ||
  (48 ≤ c.toNat && c.toNat ≤ 57) || c.toNat == 95 ||
  (0x05D0 ≤ c.toNat && c.toNat ≤ 0x05EA)

/-- Word-character test lifted to an optional character (string edge = not
a word character). -/
def isWordO : Option Char → Bool
  | none => false
  | some c => isWordChar c

/-- Character classes appearing in the source's regular expressions. -/
inductive CC where
  | lit (c : Char)
  | litCI (c : Char)
  | any
  | digit
  | space
  | nonspace
  | wordc
  | range (lo hi : Char)
  | rangeCI (lo hi : Char)
deriving DecidableEq

/-- Does character class `k` accept character `c`?  `litCI` and `rangeCI`
implement `re.IGNORECASE` (ASCII case folding, as relevant here). -/
def CC.test : CC → Char → Bool
  | .lit a, c => a == c
  | .litCI a, c => a.toLower == c.toLower
  | .any, c => c != '\n'
  | .digit, c => isDigitChar c
  | .space, c => isSpaceChar c
  | .nonspace, c => !isSpaceChar c
  | .wordc, c => isWordChar c
  | .range lo hi, c => lo.toNat ≤ c.toNat && c.toNat ≤ hi.toNat
  | .rangeCI lo hi, c =>
      (lo.toNat ≤ c.toNat && c.toNat ≤ hi.toNat) ||
      (lo.toLower.toNat ≤ c.toNat && c.toNat ≤ hi.toLower.toNat)

/-- Regular-expression ASTs.  `star lazy a` is `a*` (greedy when `lazy` is
`false`, i.e. `a*?` when `true`); `grp` is a named capture group; `wb` is
the zero-width word boundary `\b`. -/
inductive RE where
  | eps
  | ch (k : CC)
  | cat (a b : RE)
  | alt (a b : RE)
  | star (lazy : Bool) (a : RE)
  | grp (n : String) (a : RE)
  | wb
deriving DecidableEq

/-- Structural size of a regex, used to compute a fuel bound. -/
def RE.size : RE → Nat
  | .eps => 1
  | .ch _ => 1
  | .cat a b => a.size + b.size + 1
  | .alt a b => a.size + b.size + 1
  | .star _ a => a.size + 1
  | .grp _ a => a.size + 1
  | .wb => 1

/-- Captured groups of one match: association list from group name to
captured text (groups that did not participate are absent). -/
abbrev Groups := List (String × String)

/-- Backtracking matcher in continuation-passing style, mirroring CPython's
backtracking semantics: left alternative first, greedy repetition consumes
as much as possible first, lazy repetition as little as possible first.
`prev` is the character before the current position (for `\b`); the
continuation receives the previous character, remaining input and captured
groups; the overall result carries the groups and remaining length of the
successful branch.  Fuel bounds the recursion depth and is chosen large
enough for all evaluations performed here. -/
def reMatch (fuel : Nat) (r : RE) (prev : Option Char) (s : List Char)
    (caps : Groups)
    (k : Option Char → List Char → Groups → Option (Groups × Nat)) :
    Option (Groups × Nat) :=
  match fuel with
  | 0 => none
  | fuel + 1 =>
    match r with
    | .eps => k prev s caps
    | .ch c =>
      match s with
      | [] => none
      | x :: rest => if c.test x then k (some x) rest caps else none
    | .cat a b =>
      reMatch fuel a prev s caps (fun p2 s2 c2 => reMatch fuel b p2 s2 c2 k)
    | .alt a b =>
      match reMatch fuel a prev s caps k with
      | some g => some g
      | none => reMatch fuel b prev s caps k
    | .star lazy a =>
      if lazy then
        match k prev s caps with
        | some g => some g
        | none =>
          reMatch fuel a prev s caps (fun p2 s2 c2 =>
            if s2.length < s.length then
              reMatch fuel (.star lazy a) p2 s2 c2 k
            else none)
      else
        match reMatch fuel a prev s caps (fun p2 s2 c2 =>
            if s2.length < s.length then
              reMatch fuel (.star lazy a) p2 s2 c2 k
            else none) with
        | some g => some g
        | none => k prev s caps
    | .grp n a =>
      reMatch fuel a prev s caps (fun p2 s2 c2 =>
        k p2 s2 (c2 ++ [(n, String.mk (s.take (s.length - s2.length)))]))
    | .wb =>
      if isWordO prev != isWordO s.head? then k prev s caps else none

/-- One regex match: start position, end position (in characters from the
start of the searched string) and captured groups. -/
structure MatchRes where
  startPos : Nat
  endPos : Nat
  groups : List (String × String)
deriving DecidableEq

/-- Fuel bound used for all searches. -/
def reFuel (r : RE) (n : Nat) : Nat := (n + 2) * (r.size + 2) * 4

/-- Try to match at each start position in turn (leftmost search, like
`re.search`). -/
def reSearchAux (r : RE) : Option Char → List Char → Nat → Option MatchRes
  | prev, s, pos =>
    match reMatch (reFuel r s.length) r prev s []
        (fun _ s2 caps => some (caps, s2.length)) with
    | some (caps, rem) => some ⟨pos, pos + (s.length - rem), caps⟩
    | none =>
      match s with
      | [] => none
      | c :: rest => reSearchAux r (some c) rest (pos + 1)

/-- Embedding of `re.search(pattern, text)`. -/
def reSearch (r : RE) (text : String) : Option MatchRes :=
  reSearchAux r none text.data 0

/-- Embedding of `bool(re.search(pattern, text))`. -/
def reTest (r : RE) (text : String) : Bool :=
  (reSearch r text).isSome

/-- All non-overlapping matches in order (embedding of `re.finditer`);
after a match the search resumes at its end (all patterns used with this
function match at least one character and contain no word boundary, so the
left context passed to the resumed search is immaterial). -/
def reSearchAll (r : RE) (text : String) : List MatchRes :=
  go text.data 0 (text.length + 1)
where
  go (cs : List Char) (base : Nat) : Nat → List MatchRes
    | 0 => []
    | fuel + 1 =>
      match reSearchAux r none cs 0 with
      | none => []
      | some m =>
        let adv := if m.endPos == m.startPos then m.endPos + 1 else m.endPos
        let shifted : MatchRes :=
          ⟨base + m.startPos, base + m.endPos, m.groups⟩
        shifted :: go (cs.drop adv) (base + adv) fuel

/-- Substring of a string by character positions `[a, b)`, clamping like a
Python slice. -/
def strSlice (text : String) (a b : Nat) : String :=
  String.mk ((text.data.take b).drop a)

/-- Look a named group up in a match's groups, with `""` for a missing or
non-participating group (Python's `groups.get(name, "")` combined with the
`_clean_token(None) = ""` convention of the source). -/
def groupGetD (g : Groups) (n : String) : String :=
  match g.find? (fun p => p.fst == n) with
  | some p => p.snd
  | none => ""

/-- Is a named group present in a match (Python `"k" in groupdict`)? -/
def groupHas (g : Groups) (n : String) : Bool :=
  (g.find? (fun p => p.fst == n)).isSome

/-- Python `str.strip()` (ASCII whitespace, which is all the source relies
on). -/
def pyStrip (s : String) : String :=
  String.mk (((s.data.dropWhile isSpaceChar).reverse.dropWhile
    isSpaceChar).reverse)

/-- Python `str.lower()` restricted to ASCII case (Hebrew has no case). -/
def strLower (s : String) : String := String.mk (s.data.map Char.toLower)

/-- Python `str.upper()` restricted to ASCII case. -/
def strUpper (s : String) : String := String.mk (s.data.map Char.toUpper)

/-- Python `int()` on a string of ASCII digits. -/
def digitsToNat (s : String) : Nat :=
  s.data.foldl (fun a c => a * 10 + digitVal c) 0

/-- Is every character of the string an ASCII digit? -/
def isDigitStr (s : String) : Bool := s.data.all isDigitChar

/-- Decimal digits, most significant first, with structural fuel (the
fuel never runs out when it exceeds the value, since `n / 10 < n`). -/
def natDigitsAux : Nat → Nat → List Char
  | 0, _ => []
  | fuel + 1, n =>
    if n < 10 then [Char.ofNat (48 + n)]
    else natDigitsAux fuel (n / 10) ++ [Char.ofNat (48 + n % 10)]

/-- Decimal digits of `n`, most significant first (Python `str(n)`). -/
def natDigits (n : Nat) : List Char := natDigitsAux (n + 1) n

/-- Python `str(n)` for a natural number. -/
def natToStr (n : Nat) : String := String.mk (natDigits n)

/- ### Regex constructors used to transcribe the source's patterns -/

/-- Concatenation of a list of regexes. -/
def rcat (l : List RE) : RE := l.foldr RE.cat RE.eps

/-- Left-biased alternation of a list of regexes (first alternative is
preferred, as in Python). -/
def ralts (l : List RE) : RE :=
  match l with
  | [] => RE.eps
  | [r] => r
  | r :: rest => RE.alt r (ralts rest)

/-- Case-sensitive literal string. -/
def rstr (s : String) : RE := rcat (s.data.map (fun c => RE.ch (.lit c)))

/-- Case-insensitive literal string (`re.IGNORECASE`). -/
def rstrCI (s : String) : RE := rcat (s.data.map (fun c => RE.ch (.litCI c)))

/-- Alternation of case-sensitive literal words. -/
def rwords (ws : List String) : RE := ralts (ws.map rstr)

/-- Alternation of case-insensitive literal words. -/
def rwordsCI (ws : List String) : RE := ralts (ws.map rstrCI)

/-- `r{n}`: exactly `n` copies. -/
def rrep (r : RE) (n : Nat) : RE := rcat (List.replicate n r)

/-- `r{lo,hi}` greedy: tries the longest count first, as Python does. -/
def rrange (r : RE) (lo hi : Nat) : RE :=
  ralts (((List.range (hi + 1 - lo)).map (fun i => rrep r (hi - i))))

/-- `r?` greedy. -/
def ropt (r : RE) : RE := RE.alt r RE.eps

/-- `r+` greedy. -/
def rplus (r : RE) : RE := RE.cat r (RE.star false r)

/-- `.*` greedy. -/
def rdotstar : RE := RE.star false (RE.ch .any)

/-- `.*?` lazy. -/
def rdotstarL : RE := RE.star true (RE.ch .any)

/-- `\s*` greedy. -/
def rspacestar : RE := RE.star false (RE.ch .space)

/-- `\s+` greedy. -/
def rspaceplus : RE := rplus (RE.ch .space)

/-- `\S+` greedy. -/
def rnonspaceplus : RE := rplus (RE.ch .nonspace)

/-- `\w+` greedy. -/
def rwordplus : RE := rplus (RE.ch .wordc)

/-- `\d{lo,hi}` greedy. -/
def rdig (lo hi : Nat) : RE := rrange (RE.ch .digit) lo hi

/-- The apostrophe character, used in one manager pattern. -/
def apos : String := String.mk [Char.ofNat 39]

/- ### Patterns of `app/services/intent_engine.py`, transcribed 1:1.
All class-level patterns are compiled with `re.IGNORECASE`; the flag only
affects Latin letters, so Hebrew literals use `rstr` and Latin ones
`rstrCI`. -/

/-- The date separator class (dot, slash or dash). -/
def rdatesep : RE := ralts [RE.ch (.lit '.'), RE.ch (.lit '/'), RE.ch (.lit '-')]

/-- Module-level `DATE_PATTERN`: day of 1-2 digits, separator, month of
1-2 digits, separator, year of 2-4 digits, with named groups `day`,
`month`, `year`. -/
def DATE_PATTERN : RE :=
  rcat [RE.grp "day" (rdig 1 2), rdatesep, RE.grp "month" (rdig 1 2),
    rdatesep, RE.grp "year" (rdig 2 4)]

/-- Module-level `DATE_PATTERN_INLINE` (same shape, no groups). -/
def DATE_PATTERN_INLINE : RE :=
  rcat [rdig 1 2, rdatesep, rdig 1 2, rdatesep, rdig 2 4]

/-- `DAILY_CONTAINER_PATTERNS`. -/
def DAILY_CONTAINER_PATTERNS : List RE :=
  [rcat [RE.wb, rstr "כמה", RE.wb, rdotstar, RE.wb, rstr "מכולות", RE.wb,
     rdotstar, RE.wb, rstr "היום", RE.wb],
   rcat [RE.wb, rstrCI "containers", RE.wb, rdotstar, RE.wb, rstrCI "today",
     RE.wb]]

/-- `RANGE_CONTAINER_PATTERNS` (one pattern). -/
def RANGE_CONTAINER_PATTERNS : List RE :=
  [rcat [RE.wb, rstr "כמה", RE.wb, rdotstar, RE.wb, rstr "מכולות", RE.wb,
     rdotstarL, rwords ["בין", "מתאריך"], rspaceplus,
     RE.grp "from" DATE_PATTERN_INLINE, rdotstarL, rwords ["עד", "ל"],
     rspacestar, RE.grp "to" DATE_PATTERN_INLINE]]

/-- `RANGE_VEHICLES_PATTERNS` (one pattern). -/
def RANGE_VEHICLES_PATTERNS : List RE :=
  [rcat [RE.wb, rstr "כמה", RE.wb, rdotstar, RE.wb,
     ralts [rstr "רכבים", rstrCI "vehicles"], RE.wb,
     rdotstarL, rwords ["בין", "מתאריך"], rspaceplus,
     RE.grp "from" DATE_PATTERN_INLINE, rdotstarL, rwords ["עד", "ל"],
     rspacestar, RE.grp "to" DATE_PATTERN_INLINE]]

/-- The verb alternation `(?:נפרקו|עשו|עשה|טופלו|היו)` of the monthly
patterns. -/
def monthVerbs : RE := rwords ["נפרקו", "עשו", "עשה", "טופלו", "היו"]

/-- The common head `\bכמה\b.*\bמכולות\b` of the monthly/comparison
patterns. -/
def kamaMekholot : RE :=
  rcat [RE.wb, rstr "כמה", RE.wb, rdotstar, RE.wb, rstr "מכולות", RE.wb]

/-- `MONTHLY_CONTAINER_PATTERNS` (ten patterns, in source order). -/
def MONTHLY_CONTAINER_PATTERNS : List RE :=
  [rcat [kamaMekholot, rdotstarL, monthVerbs, rspaceplus, rstr "ב",
     RE.grp "month_name" rnonspaceplus, rspaceplus, RE.grp "year" (rdig 2 4)],
   rcat [kamaMekholot, rdotstarL, monthVerbs, rspaceplus, rstr "ב",
     RE.grp "month_name" rnonspaceplus],
   rcat [kamaMekholot, rdotstarL, monthVerbs, rspaceplus,
     rwords ["ב", "בחודש", "ב-", "בחודש-"], rspacestar,
     RE.grp "month_name" rnonspaceplus, rspaceplus, RE.grp "year" (rdig 2 4)],
   rcat [kamaMekholot, rdotstarL, monthVerbs, rspaceplus,
     rwords ["ב", "בחודש", "ב-", "בחודש-"], rspacestar,
     RE.grp "month_name" rnonspaceplus],
   rcat [kamaMekholot, rdotstarL, rwords ["ב", "בחודש"], rspacestar,
     RE.grp "month_name" rnonspaceplus, rspaceplus, RE.grp "year" (rdig 2 4)],
   rcat [kamaMekholot, rdotstarL, rwords ["ב", "בחודש"], rspacestar,
     RE.grp "month_name" rnonspaceplus],
   rcat [kamaMekholot, rdotstarL, rstr "ב",
     RE.grp "month_name" rnonspaceplus, rspaceplus, RE.grp "year" (rdig 2 4)],
   rcat [kamaMekholot, rdotstarL, rstr "ב",
     RE.grp "month_name" rnonspaceplus],
   rcat [kamaMekholot, rdotstarL, rwords ["ב", "בחודש"], rspacestar,
     RE.grp "month_name" rwordplus, rspaceplus, RE.grp "year" (rdig 2 4)],
   rcat [kamaMekholot, rdotstarL, rwords ["ב", "בחודש"], rspacestar,
     RE.grp "month_name" rwordplus]]

/-- `COMPARISON_MONTHLY_PATTERNS` (two patterns, in source order). -/
def COMPARISON_MONTHLY_PATTERNS : List RE :=
  [rcat [kamaMekholot, rdotstarL, rwords ["ב", "בחודש"], rspacestar,
     RE.grp "month1_name" rnonspaceplus, rspaceplus,
     RE.grp "year1" (rdig 2 4), rspaceplus,
     ralts [rstr "לעומת", rstr "מול", rstrCI "vs", rstrCI "versus"],
     rspaceplus, ropt (rwords ["ב", "בחודש"]), rspacestar,
     RE.grp "month2_name" rnonspaceplus, rspaceplus,
     RE.grp "year2" (rdig 2 4)],
   rcat [kamaMekholot, rdotstarL, rwords ["ב", "בחודש"], rspacestar,
     RE.grp "month1_name" rnonspaceplus, rspaceplus,
     RE.grp "year1" (rdig 2 4), rspaceplus,
     ralts [rstr "לעומת", rstr "מול", rstrCI "vs", rstrCI "versus"],
     rspaceplus, ropt (rwords ["ב", "בחודש"]), rspacestar,
     RE.grp "month2_name" rnonspaceplus,
     ropt (rcat [rspaceplus, RE.grp "year2" (rdig 2 4)])]]

/-- `LLM_ANALYSIS_PATTERNS`. -/
def LLM_ANALYSIS_PATTERNS : List RE :=
  [rcat [RE.wb,
     ralts [rstr "ניתוח", rstr "נתח", rstr "גמיני", rstrCI "Gemini",
       rstrCI "AI"], RE.wb]]

/-- `CONTAINER_STATUS_PATTERNS`. -/
def CONTAINER_STATUS_PATTERNS : List RE :=
  [rcat [RE.wb, rwords ["סטטוס", "מצב"], RE.wb, rdotstar, RE.wb,
     rstr "מכול"],
   rcat [RE.wb, rstrCI "container", rspaceplus, rstrCI "status", RE.wb],
   rcat [RE.wb, rstrCI "MISMHOLA", RE.wb]]

/-- `CONTAINER_GENERIC_PATTERNS`. -/
def CONTAINER_GENERIC_PATTERNS : List RE :=
  [rcat [RE.wb, rstr "מכול"],
   rcat [RE.wb, rstrCI "container", ropt (RE.ch (.litCI 's')), RE.wb]]

/-- `CONTAINER_ID_PATTERN`: `\b([A-Z]{4}\d{7}|\d{9,12})\b` with
`re.IGNORECASE`; the single capture group is named `id` here. -/
def CONTAINER_ID_PATTERN : RE :=
  rcat [RE.wb,
    RE.grp "id" (RE.alt
      (rcat [rrep (RE.ch (.rangeCI 'A' 'Z')) 4, rrep (RE.ch .digit) 7])
      (rdig 9 12)),
    RE.wb]

/-- `MANAGER_QUESTION_PATTERNS`. -/
def MANAGER_QUESTION_PATTERNS : List RE :=
  [rcat [rstr "אני", rspaceplus, rstr "מנהל"],
   rcat [rstrCI "I", rspaceplus, rstrCI "am", rspaceplus, rstrCI "a",
     rspaceplus, rstrCI "manager"],
   rcat [rstrCI ("I" ++ apos ++ "m"), rspaceplus, rstrCI "a", rspaceplus,
     rstrCI "manager"]]

/-- `PROCEDURE_QUESTION_PATTERNS` (eight patterns, in source order). -/
def PROCEDURE_QUESTION_PATTERNS : List RE :=
  [rcat [RE.wb,
     rwords ["נהל", "נהלים", "תהליך", "תהליכים", "מדיניות", "פרוצדורה",
       "פרוצדורות"], RE.wb],
   rcat [RE.wb,
     rwordsCI ["procedure", "procedures", "policy", "policies", "process",
       "processes"], RE.wb],
   rcat [RE.wb, rwords ["תור", "תורים", "עדיפות", "עדיפויות"], RE.wb,
     rdotstar, RE.wb, rwords ["נמל", "אוניה", "אוניות", "מכולה", "מכולות"]],
   rcat [RE.wb, rwords ["עקוף", "עוקף", "עוקפות", "עוקפים"], RE.wb,
     rdotstar, RE.wb, rwords ["תור", "תורים"]],
   rcat [RE.wb, rwordsCI ["queue", "queuing", "priority", "priorities"],
     RE.wb],
   rcat [RE.wb, rwords ["גרעינים", "גרעין"], RE.wb],
   rcat [RE.wb, rwords ["עקוף", "עוקף", "עוקפות", "עוקפים"], RE.wb],
   rcat [RE.wb, rwords ["אוניה", "אוניות", "אוניית"], RE.wb, rdotstar,
     RE.wb, rwords ["תור", "תורים", "עקוף"]]]

/- ### Data model and helpers of the intent engine -/

/-- A calendar date (`datetime.date`): year, month, day. -/
structure Date where
  year : Nat
  month : Nat
  day : Nat
deriving DecidableEq

/-- Python `date` comparison is lexicographic on (year, month, day). -/
def dateLtB (a b : Date) : Bool :=
  a.year < b.year ||
  (a.year == b.year &&
    (a.month < b.month || (a.month == b.month && a.day < b.day)))

/-- `a ≤ b` on dates. -/
def dateLeB (a b : Date) : Bool := dateLtB a b || a == b

/-- Gregorian leap-year rule used by `datetime.date`. -/
def isLeapYear (y : Nat) : Bool :=
  y % 4 == 0 && (y % 100 != 0 || y % 400 == 0)

/-- Days in a month, as validated by the `datetime.date` constructor. -/
def daysInMonth (y m : Nat) : Nat :=
  if m == 2 then (if isLeapYear y then 29 else 28)
  else if m == 4 || m == 6 || m == 9 || m == 11 then 30
  else 31

/-- The `datetime.date(year, month, day)` constructor: `some` on a valid
date, `none` where Python raises `ValueError` (which the source catches
and turns into `None`). -/
def mkDate (y m d : Nat) : Option Date :=
  if 1 ≤ y && y ≤ 9999 && 1 ≤ m && m ≤ 12 && 1 ≤ d && d ≤ daysInMonth y m
  then some ⟨y, m, d⟩ else none

/-- `IntentEngine._parse_date`: search `DATE_PATTERN`, expand a 2-digit
year with the 80/1900-2000 century pivot, validate via `datetime.date`. -/
def parse_date (text : String) : Option Date :=
  match reSearch DATE_PATTERN text with
  | none => none
  | some m =>
    let day := digitsToNat (groupGetD m.groups "day")
    let month := digitsToNat (groupGetD m.groups "month")
    let year0 := digitsToNat (groupGetD m.groups "year")
    let year :=
      if year0 < 100 then year0 + (if year0 < 80 then 2000 else 1900)
      else year0
    mkDate year month day

/-- `IntentEngine._parse_range`: needs both `from` and `to` groups (a
missing key raises `KeyError`, caught and turned into `None`); parses
both, fails if either fails, and swaps so the smaller date comes first. -/
def parse_range (g : Groups) : Option (Date × Date) :=
  if groupHas g "from" && groupHas g "to" then
    match parse_date (groupGetD g "from"), parse_date (groupGetD g "to") with
    | some s, some e => if dateLtB e s then some (e, s) else some (s, e)
    | _, _ => none
  else none

/-- `IntentEngine._extract_any_range`: parse every `DATE_PATTERN` match in
the text, keep the valid ones, need at least two, order the first two. -/
def extract_any_range (text : String) : Option (Date × Date) :=
  let valid := ((reSearchAll DATE_PATTERN text).map
    (fun m => parse_date (strSlice text m.startPos m.endPos))).filterMap id
  match valid with
  | a :: b :: _ => if dateLtB b a then some (b, a) else some (a, b)
  | _ => none

/-- The character set stripped by `IntentEngine._clean_token`. -/
def stripChars : List Char :=
  [' ', '\t', '\n', '\r', '.', ',', '?', '!', ':', ';', '"', Char.ofNat 39,
   '(', ')', '[', ']', Char.ofNat 123, Char.ofNat 125]

/-- Membership in `stripChars`. -/
def isStripChar (c : Char) : Bool := stripChars.contains c

/-- `IntentEngine._clean_token` (with `None` already mapped to `""` by
`groupGetD`). -/
def clean_token (t : String) : String :=
  String.mk (((t.data.dropWhile isStripChar).reverse.dropWhile
    isStripChar).reverse)

/-- The Hebrew month-name table of `_parse_month` (duplicate keys of the
source dict collapse to one entry with the same value). -/
def month_names_he : List (String × Nat) :=
  [("ינואר", 1), ("פברואר", 2), ("פבאור", 2), ("פבואר", 2),
   ("מרץ", 3), ("מרס", 3), ("מארס", 3), ("אפריל", 4), ("מאי", 5),
   ("יוני", 6), ("יולי", 7), ("אוגוסט", 8), ("ספטמבר", 9),
   ("אוקטובר", 10), ("נובמבר", 11), ("דצמבר", 12)]

/-- The English month-name table of `_parse_month`. -/
def month_names_en : List (String × Nat) :=
  [("january", 1), ("february", 2), ("march", 3), ("april", 4),
   ("may", 5), ("june", 6), ("july", 7), ("august", 8),
   ("september", 9), ("october", 10), ("november", 11), ("december", 12)]

/-- Dictionary lookup `table.get(name)`. -/
def monthLookup (t : List (String × Nat)) (n : String) : Option Nat :=
  (t.find? (fun p => p.fst == n)).map (fun p => p.snd)

/-- The month/year pair built by `_parse_month`. -/
structure MonthParams where
  month : Nat
  year : Nat
deriving DecidableEq

/-- `IntentEngine._parse_month`: clean the month token, look it up in the
Hebrew table then (lower-cased) in the English table; parse the year token
with the 80/1900-2000 century pivot, defaulting to the current year when
the token is absent.  `today` makes the source's `dt.date.today()` an
explicit input. -/
def parse_month (today : Date) (g : Groups) : Option MonthParams :=
  let month_name := clean_token (groupGetD g "month_name")
  if month_name == "" then none
  else
    match (monthLookup month_names_he month_name).orElse
        (fun _ => monthLookup month_names_en (strLower month_name)) with
    | none => none
    | some m =>
      let year_text := clean_token (groupGetD g "year")
      let year :=
        if year_text != "" then
          let y := digitsToNat year_text
          if y < 100 then y + (if y < 80 then 2000 else 1900) else y
        else today.year
      some ⟨m, year⟩

/-- The two month/year pairs built by `_parse_comparison`. -/
structure ComparisonParams where
  month1 : Nat
  year1 : Nat
  month2 : Nat
  year2 : Nat
deriving DecidableEq

/-- `IntentEngine._parse_comparison`: parse the first pair; when the
second year token is absent, reuse the first pair's (already resolved)
year, rendered back to text; then parse the second pair. -/
def parse_comparison (today : Date) (g : Groups) : Option ComparisonParams :=
  match parse_month today
      [("month_name", clean_token (groupGetD g "month1_name")),
       ("year", clean_token (groupGetD g "year1"))] with
  | none => none
  | some m1 =>
    let year2_text :=
      let y2 := clean_token (groupGetD g "year2")
      if y2 == "" then natToStr m1.year else y2
    match parse_month today
        [("month_name", clean_token (groupGetD g "month2_name")),
         ("year", year2_text)] with
    | none => none
    | some m2 => some ⟨m1.month, m1.year, m2.month, m2.year⟩

/-- First index of `needle` in `hay` (Python `str.find`, as `Option`). -/
def findSubstrIdx (hay needle : List Char) : Option Nat :=
  go hay 0
where
  go : List Char → Nat → Option Nat
    | l, i =>
      if needle.isPrefixOf l then some i
      else
        match l with
        | [] => none
        | _ :: rest => go rest (i + 1)

/-- `IntentEngine._extract_container_id`: first the ISO/MISMHOLA pattern,
then the `mismhola=` query-string fallback (a 12-character slice cut at
the first whitespace or `&`). -/
def extract_container_id (text : String) : Option String :=
  match reSearch CONTAINER_ID_PATTERN text with
  | some m => some (strUpper (groupGetD m.groups "id"))
  | none =>
    match findSubstrIdx (strLower text).data "mismhola=".data with
    | none => none
    | some idx =>
      let candidate := strSlice text (idx + 9) (idx + 9 + 12)
      let candidate := String.mk (candidate.data.takeWhile
        (fun c => !(isSpaceChar c || c == '&')))
      some (strUpper candidate)

/- ### `IntentEngine.match` as an ordered rule list -/

/-- Parameter payloads of the commands `IntentEngine.match` can build. -/
inductive IntentParams where
  | question (q : String)
  | targetDate (d : Date)
  | dateRange (startDate endDate : Date)
  | monthYear (month year : Nat)
  | comparison (month1 year1 month2 year2 : Nat)
  | containerId (cid : String)
  | questionRange (q : String) (startDate endDate : Date)
deriving DecidableEq

/-- `IntentResult(name, parameters)`. -/
structure IntentResult where
  name : String
  parameters : IntentParams
deriving DecidableEq

/-- First rule (in list order) producing a result; later entries are not
consulted. -/
def firstSome (fs : List (String → Option IntentResult)) (s : String) :
    Option IntentResult :=
  match fs with
  | [] => none
  | f :: rest =>
    match f s with
    | some r => some r
    | none => firstSome rest s

/-- Procedure/policy block of `IntentEngine.match`. -/
def ruleProcedure (s : String) : Option IntentResult :=
  if PROCEDURE_QUESTION_PATTERNS.any (fun p => reTest p s) then
    some ⟨"procedure_question", .question s⟩
  else none

/-- Manager block of `IntentEngine.match`. -/
def ruleManager (s : String) : Option IntentResult :=
  if MANAGER_QUESTION_PATTERNS.any (fun p => reTest p s) then
    some ⟨"manager_question", .question s⟩
  else none

/-- Daily-containers block (`target_date = dt.date.today()`). -/
def ruleDaily (today : Date) (s : String) : Option IntentResult :=
  if DAILY_CONTAINER_PATTERNS.any (fun p => reTest p s) then
    some ⟨"daily_containers_count", .targetDate today⟩
  else none

/-- One range pattern: a textual match whose `_parse_range` fails yields
nothing, and evaluation continues. -/
def rangeStep (name : String) (p : RE) (s : String) : Option IntentResult :=
  match reSearch p s with
  | none => none
  | some m =>
    match parse_range m.groups with
    | none => none
    | some (a, b) => some ⟨name, .dateRange a b⟩

/-- Containers-between block of `IntentEngine.match`. -/
def ruleRangeContainers (s : String) : Option IntentResult :=
  firstSome (RANGE_CONTAINER_PATTERNS.map
    (rangeStep "containers_count_between")) s

/-- Vehicles-between block of `IntentEngine.match`. -/
def ruleRangeVehicles (s : String) : Option IntentResult :=
  firstSome (RANGE_VEHICLES_PATTERNS.map
    (rangeStep "vehicles_count_between")) s

/-- One comparison pattern: textual match plus successful
`_parse_comparison`. -/
def comparisonStep (today : Date) (p : RE) (s : String) :
    Option IntentResult :=
  (reSearch p s).bind (fun m => (parse_comparison today m.groups).map
    (fun c => ⟨"containers_count_comparison",
      .comparison c.month1 c.year1 c.month2 c.year2⟩))

/-- Comparison block of `IntentEngine.match`. -/
def ruleComparison (today : Date) (s : String) : Option IntentResult :=
  firstSome (COMPARISON_MONTHLY_PATTERNS.map (comparisonStep today)) s

/-- One monthly pattern: textual match plus successful `_parse_month`. -/
def monthlyStep (today : Date) (p : RE) (s : String) : Option IntentResult :=
  (reSearch p s).bind (fun m => (parse_month today m.groups).map
    (fun mp => ⟨"containers_count_monthly", .monthYear mp.month mp.year⟩))

/-- Monthly block of `IntentEngine.match`. -/
def ruleMonthly (today : Date) (s : String) : Option IntentResult :=
  firstSome (MONTHLY_CONTAINER_PATTERNS.map (monthlyStep today)) s

/-- LLM-analysis block: the keyword match, with an optional date range
attached to the question. -/
def ruleLlm (s : String) : Option IntentResult :=
  if LLM_ANALYSIS_PATTERNS.any (fun p => reTest p s) then
    some ⟨"llm_analysis",
      match extract_any_range s with
      | some (a, b) => .questionRange s a b
      | none => .question s⟩
  else none

/-- Python truthiness of the optional id (`None` and `""` are falsy). -/
def truthyId (o : Option String) : Option String :=
  o.bind (fun c => if c == "" then none else some c)

/-- Container-status block: a status keyword plus an extractable id. -/
def ruleStatus (s : String) : Option IntentResult :=
  if CONTAINER_STATUS_PATTERNS.any (fun p => reTest p s) then
    (truthyId (extract_container_id s)).map
      (fun cid => ⟨"container_status_lookup", .containerId cid⟩)
  else none

/-- Bare container-id block (id present without keywords). -/
def ruleBareId (s : String) : Option IntentResult :=
  (truthyId (extract_container_id s)).map
    (fun cid => ⟨"container_status_lookup", .containerId cid⟩)

/-- Generic container-keyword fallback, routed to LLM analysis. -/
def ruleGeneric (s : String) : Option IntentResult :=
  if CONTAINER_GENERIC_PATTERNS.any (fun p => reTest p s) then
    some ⟨"llm_analysis", .question s⟩
  else none

/-- The fixed, totally ordered rule list of `IntentEngine.match`, in
source order. -/
def intentRules (today : Date) : List (String → Option IntentResult) :=
  [ruleProcedure, ruleManager, ruleDaily today, ruleRangeContainers,
   ruleRangeVehicles, ruleComparison today, ruleMonthly today, ruleLlm,
   ruleStatus, ruleBareId, ruleGeneric]

/-- `IntentEngine.match` (the spec's `resolve`): strip, return
`Unstructured` (`none`) on empty input, otherwise first-match-wins over
the ordered rule list.  `today` is the injected current date. -/
def matchIntent (today : Date) (text : String) : Option IntentResult :=
  let stripped := pyStrip text
  if stripped == "" then none
  else firstSome (intentRules today) stripped

/- ### Consensus engine — `app/services/council_client.py`

The network oracle `QueryFn` models `_query_model`: `none` covers errors,
timeouts and responses without content, and `some c` a response whose
content is `c` (the source additionally drops empty content at each use
site; `usableContent` applies that check).  A query carries the structured
data from which the source builds each round's prompt deterministically,
so the prompt strings themselves — pure formatting — stay opaque. -/

/-- One stage-1 entry `{"model": ..., "response": ...}`. -/
structure Stage1Result where
  model : String
  response : String
deriving DecidableEq

/-- One stage-2 entry `{"model": ..., "ranking": ..., "parsed_ranking": ...}`. -/
structure Stage2Result where
  model : String
  ranking : String
  parsedRanking : List String
deriving DecidableEq

/-- The structured content of the three per-round prompts. -/
inductive CouncilQuery where
  | stage1 (system prompt : String)
  | stage2 (system question originalPrompt : String)
      (labeled : List (String × String))
  | stage3 (system question originalPrompt : String)
      (stage1R : List Stage1Result) (stage2R : List Stage2Result)
deriving DecidableEq

/-- A backend oracle: model name and query to optional response content. -/
abbrev QueryFn := String → CouncilQuery → Option String

/-- The source's per-result usability check
`if response and response.get("content")`. -/
def usableContent (r : Option String) : Option String :=
  r.bind (fun c => if c == "" then none else some c)

/-- `\d+\.\s*Response [A-Z]` (compiled without flags, so `[A-Z]` is
case-sensitive). -/
def RANKING_LINE_PATTERN : RE :=
  rcat [rplus (RE.ch .digit), RE.ch (.lit '.'), rspacestar,
    rstr "Response ", RE.ch (.range 'A' 'Z')]

/-- `Response [A-Z]` (case-sensitive). -/
def RESPONSE_LABEL_PATTERN : RE :=
  rcat [rstr "Response ", RE.ch (.range 'A' 'Z')]

/-- `re.findall`: the matched texts, in order. -/
def reFindAll (r : RE) (text : String) : List String :=
  (reSearchAll r text).map (fun m => strSlice text m.startPos m.endPos)

/-- Text after the first occurrence of `sep`, if present. -/
def afterFirst (s sep : String) : Option String :=
  (findSubstrIdx s.data sep.data).map
    (fun i => strSlice s (i + sep.length) s.length)

/-- Text before the first occurrence of `sep` (all of `s` if absent). -/
def beforeFirst (s sep : String) : String :=
  match findSubstrIdx s.data sep.data with
  | some i => strSlice s 0 i
  | none => s

/-- `CouncilService._parse_ranking_from_text`: locate the sentinel
`FINAL RANKING:`; `str.split` makes `parts[1]` the text between the first
and second sentinel occurrence; prefer the numbered-list format and
otherwise scan for bare labels; with no sentinel, scan the whole text. -/
def parse_ranking_from_text (t : String) : List String :=
  match afterFirst t "FINAL RANKING:" with
  | some rest =>
    let ranking_section := beforeFirst rest "FINAL RANKING:"
    let numbered := reFindAll RANKING_LINE_PATTERN ranking_section
    if numbered != [] then
      numbered.map (fun m =>
        match reSearch RESPONSE_LABEL_PATTERN m with
        | some mm => strSlice m mm.startPos mm.endPos
        | none => "")
    else reFindAll RESPONSE_LABEL_PATTERN ranking_section
  | none => reFindAll RESPONSE_LABEL_PATTERN t

/-- `chr(65 + i)`: the bare label of the `i`-th stage-1 result. -/
def makeLabel (i : Nat) : String := String.mk [Char.ofNat (65 + i)]

/-- The `label_to_model` mapping of `_stage2_collect_rankings`:
`{f"Response {label}": result["model"]}` over `zip(labels, stage1_results)`. -/
def labelToModel (stage1R : List Stage1Result) : List (String × String) :=
  ((List.range stage1R.length).zip stage1R).map
    (fun p => ("Response " ++ makeLabel p.fst, p.snd.model))

/-- The labelled answers presented in the ranking prompt
(`f"Response {label}:\n{result['response']}"`). -/
def labeledResponses (stage1R : List Stage1Result) : List (String × String) :=
  ((List.range stage1R.length).zip stage1R).map
    (fun p => ("Response " ++ makeLabel p.fst, p.snd.response))

/-- `CouncilService._stage1_collect_responses`: query every council model
(`asyncio.gather` returns results in task order, i.e. configuration
order), keep the usable ones. -/
def stage1_collect_responses (models : List String) (q : QueryFn)
    (system prompt : String) : List Stage1Result :=
  models.filterMap (fun m =>
    match usableContent (q m (.stage1 system prompt)) with
    | some c => some ⟨m, c⟩
    | none => none)

/-- `CouncilService._stage2_collect_rankings`: build labels from the
stage-1 list, query every council model again with the ranking prompt,
parse each usable ranking; also return `label_to_model`. -/
def stage2_collect_rankings (models : List String) (q : QueryFn)
    (system question originalPrompt : String)
    (stage1R : List Stage1Result) :
    List Stage2Result × List (String × String) :=
  let labeled := labeledResponses stage1R
  (models.filterMap (fun m =>
    match usableContent
        (q m (.stage2 system question originalPrompt labeled)) with
    | some c => some ⟨m, c, parse_ranking_from_text c⟩
    | none => none),
   labelToModel stage1R)

/-- `CouncilService._stage3_synthesize_final`: one chairman call; on a
missing or empty response fall back to `stage1_results[0]["response"]`
(or a fixed apology when stage 1 was empty, unreachable from
`answer_question`). -/
def stage3_synthesize_final (chairman : String) (q : QueryFn)
    (system question originalPrompt : String)
    (stage1R : List Stage1Result) (stage2R : List Stage2Result) : String :=
  match usableContent
      (q chairman (.stage3 system question originalPrompt stage1R stage2R)) with
  | some c => pyStrip c
  | none =>
    match stage1R with
    | r :: _ => r.response
    | [] => "מצטער, לא הצלחתי ליצור תשובה סופית."

/-- The configured council: model list and chairman. -/
structure CouncilService where
  councilModels : List String
  chairmanModel : String
deriving DecidableEq

/-- Result of one `answer_question` call, instrumented with the number of
round-2 ranking calls and round-3 aggregator calls issued (round 2 issues
one task per configured council model; round 3 one chairman call). -/
structure AnswerTrace where
  finalText : String
  stage2Calls : Nat
  stage3Calls : Nat
deriving DecidableEq

/-- `CouncilService.answer_question`: stage 1; on an empty result return
the fixed apology at once (no further calls); otherwise always stage 2
over all council models followed by the stage-3 synthesis.  The prompt
built by `_build_prompt` enters as the opaque `prompt` argument. -/
def answer_question (svc : CouncilService) (q : QueryFn)
    (system prompt question : String) : AnswerTrace :=
  let stage1R := stage1_collect_responses svc.councilModels q system prompt
  if stage1R.isEmpty then
    ⟨"מצטער, לא הצלחתי לקבל תשובות מהמודלים. אנא נסה שוב.", 0, 0⟩
  else
    let stage2P := stage2_collect_rankings svc.councilModels q system
      question prompt stage1R
    ⟨stage3_synthesize_final svc.chairmanModel q system question prompt
       stage1R stage2P.fst,
     svc.councilModels.length, 1⟩

/- ### Arrival-order model for round-1 anonymization

`asyncio.gather(*tasks)` returns results positionally, in task order, no
matter when each task completes.  To compare the code's label assignment
with the spec's arrival-order assignment, a timed oracle annotates every
response with a completion time. -/

/-- A backend oracle annotated with completion times. -/
abbrev TimedQueryFn := String → CouncilQuery → Option String × Nat

/-- Forget the completion times. -/
def dropTimes (q : TimedQueryFn) : QueryFn := fun m k => (q m k).fst

/-- Stage 1 over a timed oracle: `asyncio.gather` keeps task
(configuration) order, so completion times do not enter. -/
def stage1_collect_responses_timed (models : List String) (q : TimedQueryFn)
    (system prompt : String) : List Stage1Result :=
  stage1_collect_responses models (dropTimes q) system prompt

/-- Stable insertion into a list sorted by completion time. -/
def insertByTime (x : String × Nat) : List (String × Nat) → List (String × Nat)
  | [] => [x]
  | y :: rest =>
    if x.snd < y.snd then x :: y :: rest else y :: insertByTime x rest

/-- The models that succeeded in round 1, sorted by completion time
(arrival order, first-to-respond first; ties keep configuration order). -/
def arrivalOrder (models : List String) (q : TimedQueryFn)
    (system prompt : String) : List String :=
  ((models.filterMap (fun m =>
    match q m (.stage1 system prompt) with
    | (some c, t) => if c == "" then none else some (m, t)
    | (none, _) => none)).foldr insertByTime []).map (fun p => p.fst)

/-- Modelled from the spec: `AnonymizedLabel`s (`"Response A"`, …) are
assigned to round-1 successes in the order the backends returned
successfully (arrival order), first-to-respond getting `"A"`. -/
def specLabelToModelByArrival (models : List String) (q : TimedQueryFn)
    (system prompt : String) : List (String × String) :=
  let arr := arrivalOrder models q system prompt
  ((List.range arr.length).zip arr).map
    (fun p => ("Response " ++ makeLabel p.fst, p.snd))

/- ### Webhook router, monthly-count branch — `app/routes/webhook.py` -/

/-- The month-name table of `build_monthly_containers_response`
(`app/services/response_builder.py`). -/
def month_names_he_resp : List (Nat × String) :=
  [(1, "ינואר"), (2, "פברואר"), (3, "מרץ"), (4, "אפריל"), (5, "מאי"),
   (6, "יוני"), (7, "יולי"), (8, "אוגוסט"), (9, "ספטמבר"),
   (10, "אוקטובר"), (11, "נובמבר"), (12, "דצמבר")]

/-- `build_monthly_containers_response(count, month, year)`. -/
def build_monthly_containers_response (count month year : Nat) : String :=
  let month_name :=
    match month_names_he_resp.find? (fun p => p.fst == month) with
    | some p => p.snd
    | none => "חודש " ++ natToStr month
  "בחודש " ++ month_name ++ " " ++ natToStr year ++ " נפרקו " ++
    natToStr count ++ " מכולות."

/-- Python substring containment `sub in s`. -/
def strContainsSub (s sub : String) : Bool :=
  s.data.tails.any (fun t => sub.data.isPrefixOf t)

/-- The webhook's acceptance test for the double-check LLM response:
`llm_response and "לא מצאתי" not in llm_response and
"חסר" not in llm_response.lower()`. -/
def llmResponseUsable (r : String) : Bool :=
  r != "" && !strContainsSub r "לא מצאתי" && !strContainsSub (strLower r) "חסר"

/-- Outcome of the `containers_count_monthly` branch: whether the extra
Council/Gemini call was made, and the reply text. -/
structure MonthlyOutcome where
  madeLlmCall : Bool
  responseText : String
deriving DecidableEq

/-- The `containers_count_monthly` branch of `handle_webhook`: when the
store's count is 0 and a Council or Gemini service is configured, make one
extra LLM call (`llmAnswer` is its result) and reply with it if usable,
otherwise with the formatted (zero-)count response; with a nonzero count
or no service, reply with the formatted count response and no LLM call. -/
def handleMonthlyCount (count : Nat) (hasCouncil hasGemini : Bool)
    (llmAnswer : String) (month year : Nat) : MonthlyOutcome :=
  if count == 0 && (hasCouncil || hasGemini) then
    if llmResponseUsable llmAnswer then ⟨true, llmAnswer⟩
    else ⟨true, build_monthly_containers_response count month year⟩
  else ⟨false, build_monthly_containers_response count month year⟩

/- ### Concrete configurations and oracles used in the analyses below -/

/-- The default council of `CouncilService.__init__`. -/
def defaultCouncil : CouncilService :=
  ⟨["openai/gpt-4o", "google/gemini-2.0-flash-exp",
    "anthropic/claude-3.5-sonnet"],
   "google/gemini-2.0-flash-exp"⟩

/-- An oracle on which exactly one backend gives a usable round-1 answer,
round-2 rankings all fail, and the chairman synthesizes `"SYNTH"`. -/
def qSingleSuccess : QueryFn := fun m k =>
  match k with
  | .stage1 _ _ => if m == "openai/gpt-4o" then some "ANS" else none
  | .stage2 _ _ _ _ => none
  | .stage3 _ _ _ _ _ => some "SYNTH"

/-- A three-model council used in concrete instances. -/
def smallCouncil : CouncilService := ⟨["m1", "m2", "m3"], "chair"⟩

/-- An oracle where the configuration-first model fails in round 1 and the
chairman returns nothing. -/
def qNoChairman : QueryFn := fun m k =>
  match k with
  | .stage1 _ _ =>
    if m == "m2" then some "B2" else if m == "m3" then some "C3" else none
  | .stage2 _ _ _ _ => some "rank"
  | .stage3 _ _ _ _ _ => none

/-- A timed oracle where the configuration-second model completes first
(time 10 against time 50) and the third model fails. -/
def qTimedSwap : TimedQueryFn := fun m k =>
  match k with
  | .stage1 _ _ =>
    if m == "m1" then (some "R1", 50)
    else if m == "m2" then (some "R2", 10)
    else (none, 0)
  | _ => (none, 0)

/- ### Helper lemmas -/

/-- Decomposition of a `filterMap` producing a nonempty list: the head
comes from the first element the function accepts. -/
theorem filterMap_cons_split {α β : Type} (f : α → Option β) :
    ∀ (l : List α) (b : β) (bs : List β), l.filterMap f = b :: bs →
      ∃ pre a post, l = pre ++ a :: post ∧ f a = some b ∧
        ∀ x ∈ pre, f x = none := by
  intro l
  induction l with
  | nil => intro b bs h; simp [List.filterMap] at h
  | cons x xs ih =>
    intro b bs h
    cases hx : f x with
    | some v =>
      rw [List.filterMap_cons_some hx] at h
      injection h with h1 h2
      exact ⟨[], x, xs, rfl, by rw [hx, h1], by intro y hy; simp at hy⟩
    | none =>
      rw [List.filterMap_cons_none hx] at h
      obtain ⟨pre, a, post, hl, hfa, hpre⟩ := ih b bs h
      refine ⟨x :: pre, a, post, by rw [hl]; rfl, hfa, ?_⟩
      intro y hy
      rcases List.mem_cons.mp hy with rfl | hy2
      · exact hx
      · exact hpre y hy2

/-- The stage-1 result list carries exactly the configured models whose
round-1 responses are usable, in configuration order. -/
theorem stage1_models_eq_filter (models : List String) (q : QueryFn)
    (system prompt : String) :
    (stage1_collect_responses models q system prompt).map Stage1Result.model =
      models.filter
        (fun m => (usableContent (q m (.stage1 system prompt))).isSome) := by
  induction models with
  | nil => rfl
  | cons m ms ih =>
    simp only [stage1_collect_responses] at ih ⊢
    cases h : usableContent (q m (.stage1 system prompt)) with
    | some c =>
      rw [List.filterMap_cons_some (show _ = some (Stage1Result.mk m c) by simp [h])]
      simp [List.filter_cons, h, ih]
    | none =>
      rw [List.filterMap_cons_none (show _ = none by simp [h])]
      simp [List.filter_cons, h, ih]

/- ### Claims about the consensus engine -/

/-- C4: when zero backends return a usable answer in round 1,
`answer_question` returns the fixed no-answer (none-available) message
immediately, issuing no round-2 ranking calls and no round-3 aggregator
call. -/
theorem c4_zero_success_short_circuit (svc : CouncilService) (q : QueryFn)
    (system prompt question : String)
    (h : stage1_collect_responses svc.councilModels q system prompt = []) :
    answer_question svc q system prompt question =
      ⟨"מצטער, לא הצלחתי לקבל תשובות מהמודלים. אנא נסה שוב.", 0, 0⟩ := by
  simp [answer_question, h]

/-- C4 witness: the all-failing oracle on the default council. -/
theorem c4_zero_success_short_circuit_witness :
    stage1_collect_responses defaultCouncil.councilModels (fun _ _ => none)
      "s" "p" = [] ∧
    answer_question defaultCouncil (fun _ _ => none) "s" "p" "q" =
      ⟨"מצטער, לא הצלחתי לקבל תשובות מהמודלים. אנא נסה שוב.", 0, 0⟩ :=
  ⟨rfl, c4_zero_success_short_circuit defaultCouncil (fun _ _ => none)
    "s" "p" "q" rfl⟩

/-- C1 counterexample: on the default council with exactly one usable
round-1 answer (`"ANS"` from the first model), the engine still issues 3
round-2 ranking calls and 1 round-3 call, and returns the chairman's
synthesis `"SYNTH"`, not the single backend's text — there is no
single-backend short circuit. -/
theorem c1_counterexample :
    (stage1_collect_responses defaultCouncil.councilModels qSingleSuccess
      "s" "p").length = 1 ∧
    (answer_question defaultCouncil qSingleSuccess "s" "p" "q").stage2Calls
      = 3 ∧
    (answer_question defaultCouncil qSingleSuccess "s" "p" "q").stage3Calls
      = 1 ∧
    (answer_question defaultCouncil qSingleSuccess "s" "p" "q").finalText
      = "SYNTH" ∧
    (answer_question defaultCouncil qSingleSuccess "s" "p" "q").finalText
      ≠ "ANS" := by
  refine ⟨rfl, rfl, rfl, rfl, by decide⟩

/-- C1 (amended): with exactly one usable round-1 answer the engine does
not short-circuit — it issues one round-2 ranking call per configured
model (a positive number) and one round-3 aggregator call, and the single
backend's text is returned only as the fallback when the aggregator fails
or returns empty. -/
theorem c1_single_success_no_short_circuit (svc : CouncilService)
    (q : QueryFn) (system prompt question : String) (r : Stage1Result)
    (h : stage1_collect_responses svc.councilModels q system prompt = [r]) :
    (answer_question svc q system prompt question).stage2Calls =
      svc.councilModels.length ∧
    0 < svc.councilModels.length ∧
    (answer_question svc q system prompt question).stage3Calls = 1 ∧
    (usableContent (q svc.chairmanModel
        (.stage3 system question prompt [r]
          (stage2_collect_rankings svc.councilModels q system question
            prompt [r]).fst)) = none →
      (answer_question svc q system prompt question).finalText =
        r.response) := by
  have hne : svc.councilModels ≠ [] := by
    intro hnil
    rw [hnil] at h
    simp [stage1_collect_responses] at h
  refine ⟨by simp [answer_question, h], List.length_pos.mpr hne,
    by simp [answer_question, h], ?_⟩
  intro hch
  simp [answer_question, h, stage3_synthesize_final, hch]

/-- C1 witness: concrete single-success run on the default council. -/
theorem c1_single_success_no_short_circuit_witness :
    (answer_question defaultCouncil qSingleSuccess "s" "p" "q").stage2Calls
        = 3 ∧
    0 < defaultCouncil.councilModels.length ∧
    (answer_question defaultCouncil qSingleSuccess "s" "p" "q").stage3Calls
        = 1 := by
  obtain ⟨h1, h2, h3, _⟩ := c1_single_success_no_short_circuit
    defaultCouncil qSingleSuccess "s" "p" "q"
    ⟨"openai/gpt-4o", "ANS"⟩ (by decide)
  exact ⟨h1, h2, h3⟩

/-- C5: when the round-3 aggregator fails or returns empty content, the
final text is the round-1 answer of the configuration-first successful
backend: the head of the stage-1 list, which sits in the configured model
list after only models whose round-1 responses were unusable. -/
theorem c5_aggregator_fallback (svc : CouncilService) (q : QueryFn)
    (system prompt question : String) (r : Stage1Result)
    (rest : List Stage1Result)
    (h1 : stage1_collect_responses svc.councilModels q system prompt =
      r :: rest)
    (h2 : usableContent (q svc.chairmanModel
        (.stage3 system question prompt (r :: rest)
          (stage2_collect_rankings svc.councilModels q system question
            prompt (r :: rest)).fst)) = none) :
    (answer_question svc q system prompt question).finalText = r.response ∧
    ∃ pre post, svc.councilModels = pre ++ r.model :: post ∧
      ∀ m ∈ pre, usableContent (q m (.stage1 system prompt)) = none := by
  constructor
  · simp [answer_question, h1, stage3_synthesize_final, h2]
  · obtain ⟨pre, a, post, hl, hfa, hpre⟩ :=
      filterMap_cons_split _ svc.councilModels r rest h1
    have ha : usableContent (q a (.stage1 system prompt)) = some r.response
        ∧ r.model = a := by
      cases hu : usableContent (q a (.stage1 system prompt)) with
      | some c =>
        simp only [hu] at hfa
        injection hfa with hr
        constructor
        · rw [← hr]
        · rw [← hr]
      | none => simp [hu] at hfa
    refine ⟨pre, post, by rw [ha.2]; exact hl, ?_⟩
    intro m hm
    have := hpre m hm
    cases hu : usableContent (q m (.stage1 system prompt)) with
    | some c => simp [hu] at this
    | none => rfl

/-- C5 witness: on the three-model council where `m1` fails and the
chairman returns nothing, the final answer is `m2`'s round-1 text. -/
theorem c5_aggregator_fallback_witness :
    (answer_question smallCouncil qNoChairman "s" "p" "q").finalText =
      "B2" :=
  (c5_aggregator_fallback smallCouncil qNoChairman "s" "p" "q"
    ⟨"m2", "B2"⟩ [⟨"m3", "C3"⟩] (by decide) (by decide)).1

/-- C2 counterexample: with `m2` completing (time 10) before `m1`
(time 50), arrival order is `[m2, m1]`, yet the code's `label_to_model`
assigns `"Response A"` to `m1` — labels follow configuration order, not
arrival order, so the code's mapping differs from the spec's
arrival-order mapping. -/
theorem c2_counterexample :
    arrivalOrder ["m1", "m2", "m3"] qTimedSwap "s" "p" = ["m2", "m1"] ∧
    labelToModel (stage1_collect_responses_timed ["m1", "m2", "m3"]
        qTimedSwap "s" "p") =
      [("Response A", "m1"), ("Response B", "m2")] ∧
    labelToModel (stage1_collect_responses_timed ["m1", "m2", "m3"]
        qTimedSwap "s" "p") ≠
      specLabelToModelByArrival ["m1", "m2", "m3"] qTimedSwap "s" "p" := by
  refine ⟨rfl, rfl, by decide⟩

/-- C2 (amended): the anonymized labels are assigned to round-1 successes
in configuration order — the label mapping is independent of completion
times (`asyncio.gather` returns results in task order), and the models
carrying labels are exactly the configured models with usable round-1
responses, in configuration order. -/
theorem c2_labels_follow_configuration_order (models : List String)
    (q : TimedQueryFn) (system prompt : String) :
    labelToModel (stage1_collect_responses_timed models q system prompt) =
      labelToModel (stage1_collect_responses models (dropTimes q) system
        prompt) ∧
    (stage1_collect_responses_timed models q system prompt).map
        Stage1Result.model =
      models.filter (fun m =>
        (usableContent (dropTimes q m (.stage1 system prompt))).isSome) :=
  ⟨rfl, stage1_models_eq_filter models (dropTimes q) system prompt⟩

/- ### Claim about the webhook's monthly-count branch -/

/-- C10: dispatching `containers_count_monthly` with a zero count while a
Council or Gemini service is configured triggers exactly one extra LLM
call, whose text replaces the formatted zero-count reply iff it is
non-empty and contains neither `לא מצאתי` nor (case-folded) `חסר`;
in every other situation no LLM call is made and the formatted count
reply is returned. -/
theorem c10_monthly_zero_count_double_check (count : Nat)
    (hasCouncil hasGemini : Bool) (llmAnswer : String) (month year : Nat) :
    ((handleMonthlyCount count hasCouncil hasGemini llmAnswer month
        year).madeLlmCall = true ↔
      (count = 0 ∧ (hasCouncil = true ∨ hasGemini = true))) ∧
    (count = 0 → (hasCouncil = true ∨ hasGemini = true) →
      ((llmAnswer ≠ "" ∧ strContainsSub llmAnswer "לא מצאתי" = false ∧
          strContainsSub (strLower llmAnswer) "חסר" = false) →
        (handleMonthlyCount count hasCouncil hasGemini llmAnswer month
          year).responseText = llmAnswer) ∧
      (¬(llmAnswer ≠ "" ∧ strContainsSub llmAnswer "לא מצאתי" = false ∧
          strContainsSub (strLower llmAnswer) "חסר" = false) →
        (handleMonthlyCount count hasCouncil hasGemini llmAnswer month
          year).responseText =
          build_monthly_containers_response count month year)) ∧
    (¬(count = 0 ∧ (hasCouncil = true ∨ hasGemini = true)) →
      (handleMonthlyCount count hasCouncil hasGemini llmAnswer month
        year).madeLlmCall = false ∧
      (handleMonthlyCount count hasCouncil hasGemini llmAnswer month
        year).responseText =
        build_monthly_containers_response count month year) := by
  have husable : llmResponseUsable llmAnswer = true ↔
      (llmAnswer ≠ "" ∧ strContainsSub llmAnswer "לא מצאתי" = false ∧
        strContainsSub (strLower llmAnswer) "חסר" = false) := by
    simp [llmResponseUsable, ne_eq, bne_iff_ne, Bool.and_eq_true,
      Bool.not_eq_true']
    tauto
  by_cases hc : count = 0 ∧ (hasCouncil = true ∨ hasGemini = true)
  · have hcb : (count == 0 && (hasCouncil || hasGemini)) = true := by
      obtain ⟨h1, h2⟩ := hc
      subst h1
      rcases h2 with h2 | h2 <;> simp [h2]
    by_cases hu : llmResponseUsable llmAnswer = true
    · refine ⟨by simp [handleMonthlyCount, hcb, hu, hc], fun _ _ => ⟨?_, ?_⟩,
        fun hn => absurd hc hn⟩
      · intro _
        simp [handleMonthlyCount, hcb, hu]
      · intro hbad
        exact absurd (husable.mp hu) hbad
    · have hu2 : llmResponseUsable llmAnswer = false :=
        Bool.not_eq_true _ ▸ (Bool.eq_false_iff.mpr hu)
      refine ⟨by simp [handleMonthlyCount, hcb, hu2, hc], fun _ _ => ⟨?_, ?_⟩,
        fun hn => absurd hc hn⟩
      · intro hgood
        exact absurd (husable.mpr hgood) hu
      · intro _
        simp [handleMonthlyCount, hcb, hu2]
  · have hcb : (count == 0 && (hasCouncil || hasGemini)) = false := by
      rcases Decidable.not_and_iff_or_not.mp hc with h1 | h2
      · simp [beq_eq_false_iff_ne.mpr h1]
      · have hcg : hasCouncil = false ∧ hasGemini = false := by
          constructor
          · cases hasCouncil
            · rfl
            · exact absurd (Or.inl rfl) h2
          · cases hasGemini
            · rfl
            · exact absurd (Or.inr rfl) h2
        simp [hcg.1, hcg.2]
    refine ⟨by simp [handleMonthlyCount, hcb, hc], fun h1 h2 =>
      absurd ⟨h1, h2⟩ hc, fun _ => ?_⟩
    constructor <;> simp [handleMonthlyCount, hcb]

/-- C10 witness: with a zero count, a configured Council and a usable LLM
answer, the reply is the LLM text; with a nonzero count the formatted
count reply is returned without an LLM call. -/
theorem c10_monthly_zero_count_double_check_witness :
    (handleMonthlyCount 0 true false "בפברואר 2025 נפרקו 500 מכולות" 2
      2025).responseText = "בפברואר 2025 נפרקו 500 מכולות" ∧
    (handleMonthlyCount 7 true false "x" 2 2025).madeLlmCall = false ∧
    (handleMonthlyCount 7 true false "x" 2 2025).responseText =
      build_monthly_containers_response 7 2 2025 := by
  refine ⟨((c10_monthly_zero_count_double_check 0 true false
      "בפברואר 2025 נפרקו 500 מכולות" 2 2025).2.1 rfl (Or.inl rfl)).1
      ⟨by decide, by decide, by decide⟩, ?_⟩
  exact (c10_monthly_zero_count_double_check 7 true false "x" 2 2025).2.2
    (by simp)

/- ### Date-order helper lemmas -/

/-- A strictly smaller date is smaller-or-equal. -/
theorem dateLeB_of_dateLtB (a b : Date) (h : dateLtB a b = true) :
    dateLeB a b = true := by
  simp [dateLeB, h]

/-- Totality: if `b < a` fails then `a ≤ b`. -/
theorem dateLeB_of_not_dateLtB (a b : Date) (h : dateLtB b a = false) :
    dateLeB a b = true := by
  obtain ⟨y1, m1, d1⟩ := a
  obtain ⟨y2, m2, d2⟩ := b
  simp only [dateLtB, dateLeB, Bool.or_eq_true, Bool.and_eq_true,
    Bool.or_eq_false_iff, Bool.and_eq_false_iff, decide_eq_true_eq,
    decide_eq_false_iff_not, beq_iff_eq, beq_eq_false_iff_ne, ne_eq,
    Date.mk.injEq] at h ⊢
  omega

/- ### Claim C9: extracted ranges are ordered -/

/-- C9: any range built by `_parse_range` or `_extract_any_range`
satisfies `start ≤ end`, whatever the textual order of the two dates. -/
theorem c9_range_start_le_end :
    (∀ (g : Groups) (a b : Date), parse_range g = some (a, b) →
      dateLeB a b = true) ∧
    (∀ (t : String) (a b : Date), extract_any_range t = some (a, b) →
      dateLeB a b = true) := by
  constructor
  · intro g a b h
    unfold parse_range at h
    split at h
    · cases hs : parse_date (groupGetD g "from") with
      | none => rw [hs] at h; simp at h
      | some s =>
        cases he : parse_date (groupGetD g "to") with
        | none => rw [hs, he] at h; simp at h
        | some e =>
          rw [hs, he] at h
          dsimp only at h
          by_cases hlt : dateLtB e s = true
          · rw [if_pos hlt] at h
            injection h with h2
            injection h2 with ha hb
            subst ha; subst hb
            exact dateLeB_of_dateLtB _ _ hlt
          · rw [if_neg hlt] at h
            injection h with h2
            injection h2 with ha hb
            subst ha; subst hb
            exact dateLeB_of_not_dateLtB _ _ (Bool.eq_false_iff.mpr hlt)
    · simp at h
  · intro t a b h
    simp only [extract_any_range] at h
    split at h
    next x y rest heq =>
      by_cases hlt : dateLtB y x = true
      · rw [if_pos hlt] at h
        injection h with h2
        injection h2 with ha hb
        subst ha; subst hb
        exact dateLeB_of_dateLtB _ _ hlt
      · rw [if_neg hlt] at h
        injection h with h2
        injection h2 with ha hb
        subst ha; subst hb
        exact dateLeB_of_not_dateLtB _ _ (Bool.eq_false_iff.mpr hlt)
    next => simp at h

/-- C9 witness: the two dates `20.5.25` and `3.4.24` appear in reversed
textual order and come out ordered. -/
theorem c9_range_start_le_end_witness :
    parse_range [("from", "20.5.25"), ("to", "3.4.24")] =
      some (⟨2024, 4, 3⟩, ⟨2025, 5, 20⟩) ∧
    dateLeB ⟨2024, 4, 3⟩ ⟨2025, 5, 20⟩ = true :=
  ⟨by decide, c9_range_start_le_end.1 [("from", "20.5.25"), ("to", "3.4.24")]
    ⟨2024, 4, 3⟩ ⟨2025, 5, 20⟩ (by decide)⟩

/- ### Digit-string helper lemmas -/

/-- A two-character digit string denotes a value below 100. -/
theorem digitsToNat_lt_100_of_len2 (s : String) (hd : isDigitStr s = true)
    (hl : s.length = 2) : digitsToNat s < 100 := by
  obtain ⟨l⟩ := s
  match l, hl with
  | [a, b], _ =>
    simp only [isDigitStr, List.all_cons, List.all_nil, Bool.and_eq_true,
      isDigitChar, decide_eq_true_eq] at hd
    simp only [digitsToNat, List.foldl, digitVal]
    omega

/-- Digit strings are unaffected by `_clean_token`. -/
theorem clean_token_of_digits (s : String) (hd : isDigitStr s = true) :
    clean_token s = s := by
  obtain ⟨l⟩ := s
  simp only [isDigitStr] at hd
  have hstrip : ∀ c, isDigitChar c = true → isStripChar c = false := by
    intro c hc
    cases hmem : isStripChar c with
    | false => rfl
    | true =>
      have hmem2 : c ∈ stripChars := by
        simpa [isStripChar] using hmem
      have : ∀ c ∈ stripChars, isDigitChar c = false := by decide
      rw [this c hmem2] at hc
      cases hc
  have hkeep : ∀ (m : List Char), (∀ c ∈ m, isDigitChar c = true) →
      m.dropWhile isStripChar = m := by
    intro m hm
    cases m with
    | nil => rfl
    | cons c rest =>
      rw [List.dropWhile_cons]
      rw [hstrip c (hm c (List.mem_cons_self c rest))]
      simp
  have hall : ∀ c ∈ l, isDigitChar c = true := by
    intro c hc
    exact List.all_eq_true.mp hd c hc
  have hallrev : ∀ c ∈ l.reverse, isDigitChar c = true := by
    intro c hc
    exact hall c (List.mem_reverse.mp hc)
  simp only [clean_token]
  rw [hkeep l hall, hkeep l.reverse hallrev, List.reverse_reverse]

/-- The `datetime.date` constructor embeds the fields it was given. -/
theorem mkDate_eq (y m dd : Nat) (d : Date) (h : mkDate y m dd = some d) :
    d = ⟨y, m, dd⟩ := by
  unfold mkDate at h
  split at h
  · injection h with h1
    exact h1.symm
  · cases h

/- ### Claim C7: the 80/1900-2000 century pivot -/

/-- C7: whenever date extraction (`_parse_date`) or month extraction
(`_parse_month`) accepts a 2-digit year token of value `Y`, the resolved
year is `2000 + Y` for `Y < 80` and `1900 + Y` otherwise. -/
theorem c7_century_pivot :
    (∀ (text : String) (m : MatchRes) (Y : Nat) (d : Date),
      reSearch DATE_PATTERN text = some m →
      isDigitStr (groupGetD m.groups "year") = true →
      (groupGetD m.groups "year").length = 2 →
      digitsToNat (groupGetD m.groups "year") = Y →
      parse_date text = some d →
      d.year = if Y < 80 then 2000 + Y else 1900 + Y) ∧
    (∀ (today : Date) (g : Groups) (Y : Nat) (mp : MonthParams),
      isDigitStr (clean_token (groupGetD g "year")) = true →
      (clean_token (groupGetD g "year")).length = 2 →
      digitsToNat (clean_token (groupGetD g "year")) = Y →
      parse_month today g = some mp →
      mp.year = if Y < 80 then 2000 + Y else 1900 + Y) := by
  constructor
  · intro text m Y d hm hdig hlen hY hpd
    have hY100 : Y < 100 := by
      rw [← hY]
      exact digitsToNat_lt_100_of_len2 _ hdig hlen
    unfold parse_date at hpd
    rw [hm] at hpd
    dsimp only at hpd
    rw [hY] at hpd
    rw [if_pos hY100] at hpd
    have := mkDate_eq _ _ _ _ hpd
    rw [this]
    by_cases h80 : Y < 80
    · simp only [if_pos h80]
      omega
    · simp only [if_neg h80]
      omega
  · intro today g Y mp hdig hlen hY hpm
    have hY100 : Y < 100 := by
      rw [← hY]
      exact digitsToNat_lt_100_of_len2 _ hdig hlen
    have hne : (clean_token (groupGetD g "year") != "") = true := by
      rw [bne_iff_ne]
      intro hemp
      rw [hemp] at hlen
      simp [String.length] at hlen
    simp only [parse_month] at hpm
    split at hpm
    · cases hpm
    · split at hpm
      · cases hpm
      · rw [hY, if_pos hY100] at hpm
        injection hpm with h1
        rw [← h1]
        by_cases h80 : Y < 80
        · simp only [if_pos h80]
          omega
        · simp only [if_neg h80]
          omega

/-- C7 witness: `15.3.25` resolves to year 2025; month groups with year
token `99` resolve to 1999. -/
theorem c7_century_pivot_witness :
    (parse_date "15.3.25" = some ⟨2025, 3, 15⟩ ∧ (2025 : Nat) =
      if 25 < 80 then 2000 + 25 else 1900 + 25) ∧
    (parse_month ⟨2026, 10, 12⟩ [("month_name", "מרץ"), ("year", "99")] =
      some ⟨3, 1999⟩ ∧ (1999 : Nat) =
      if 99 < 80 then 2000 + 99 else 1900 + 99) := by
  have h1 := c7_century_pivot.1 "15.3.25"
    ⟨0, 7, [("day", "15"), ("month", "3"), ("year", "25")]⟩ 25
    ⟨2025, 3, 15⟩ (by decide) (by decide) (by decide) (by decide) (by decide)
  have h2 := c7_century_pivot.2 ⟨2026, 10, 12⟩
    [("month_name", "מרץ"), ("year", "99")] 99 ⟨3, 1999⟩
    (by decide) (by decide) (by decide) (by decide)
  exact ⟨⟨by decide, h1.symm⟩, ⟨by decide, h2.symm⟩⟩

/- ### `str(n)` round-trip lemmas -/

/-- Every character `natDigitsAux` emits is a digit. -/
theorem natDigitsAux_digits : ∀ (fuel n : Nat), n < fuel →
    ∀ c ∈ natDigitsAux fuel n, isDigitChar c = true := by
  have hbase : ∀ m, m < 10 → isDigitChar (Char.ofNat (48 + m)) = true := by
    decide
  intro fuel
  induction fuel with
  | zero => intro n h; omega
  | succ fuel ih =>
    intro n h c hc
    rw [natDigitsAux] at hc
    split at hc
    next h10 =>
      rw [List.mem_singleton] at hc
      subst hc
      exact hbase n h10
    next h10 =>
      rcases List.mem_append.mp hc with hc1 | hc2
      · exact ih (n / 10) (by omega) c hc1
      · rw [List.mem_singleton] at hc2
        subst hc2
        exact hbase (n % 10) (by omega)

/-- Folding the digit characters back yields the value. -/
theorem foldl_natDigitsAux : ∀ (fuel n : Nat), n < fuel →
    (natDigitsAux fuel n).foldl (fun a c => a * 10 + digitVal c) 0 = n := by
  have hval : ∀ m, m < 10 → digitVal (Char.ofNat (48 + m)) = m := by decide
  intro fuel
  induction fuel with
  | zero => intro n h; omega
  | succ fuel ih =>
    intro n h
    rw [natDigitsAux]
    split
    next h10 => simp [List.foldl, hval n h10]
    next h10 =>
      rw [List.foldl_append]
      rw [ih (n / 10) (by omega)]
      simp only [List.foldl]
      rw [hval (n % 10) (by omega)]
      omega

/-- `natDigitsAux` with positive fuel is nonempty. -/
theorem natDigitsAux_ne_nil (fuel n : Nat) :
    natDigitsAux (fuel + 1) n ≠ [] := by
  rw [natDigitsAux]
  split
  · simp
  · simp

/-- `str(n)` consists of digits. -/
theorem isDigitStr_natToStr (n : Nat) : isDigitStr (natToStr n) = true := by
  simp only [isDigitStr, natToStr]
  exact List.all_eq_true.mpr (natDigitsAux_digits (n + 1) n (by omega))

/-- `int(str(n)) = n`. -/
theorem digitsToNat_natToStr (n : Nat) : digitsToNat (natToStr n) = n :=
  foldl_natDigitsAux (n + 1) n (by omega)

/-- `str(n)` is never empty. -/
theorem natToStr_ne_empty (n : Nat) : natToStr n ≠ "" := by
  simp only [natToStr, natDigits]
  intro h
  have : natDigitsAux (n + 1) n = [] := by
    have := congrArg String.data h
    simpa using this
  exact natDigitsAux_ne_nil n n this

/-- `_clean_token` leaves `str(n)` unchanged. -/
theorem clean_token_natToStr (n : Nat) :
    clean_token (natToStr n) = natToStr n :=
  clean_token_of_digits _ (isDigitStr_natToStr n)

/-- Any year `_parse_month` resolves is at least 100 when the current
year is (pivoted years land in 1900–2079; explicit long tokens are
already at least 100). -/
theorem parse_month_year_ge (today : Date) (h : 100 ≤ today.year)
    (g : Groups) (mp : MonthParams) (hp : parse_month today g = some mp) :
    100 ≤ mp.year := by
  simp only [parse_month] at hp
  split at hp
  · cases hp
  · split at hp
    · cases hp
    · split at hp
      next hne =>
        injection hp with h1
        rw [← h1]
        dsimp only
        split
        next h100 => split <;> omega
        next h100 => omega
      next hne =>
        injection hp with h1
        rw [← h1]
        dsimp only
        exact h

/-- A month parse whose year token is the rendering of `y ≥ 100` resolves
the year to `y` itself (no pivot). -/
theorem parse_month_natToStr_year (today : Date) (mn : String) (y : Nat)
    (hy : 100 ≤ y) (m2 : MonthParams)
    (hp : parse_month today [("month_name", mn), ("year", natToStr y)] =
      some m2) : m2.year = y := by
  have hg : groupGetD [("month_name", mn), ("year", natToStr y)] "year" =
      natToStr y := rfl
  simp only [parse_month, hg, clean_token_natToStr] at hp
  split at hp
  · cases hp
  · split at hp
    · cases hp
    · rw [if_pos (bne_iff_ne.mpr (natToStr_ne_empty y)),
        digitsToNat_natToStr, if_neg (by omega)] at hp
      injection hp with h1
      rw [← h1]

/- ### Claim C8: default years for omitted year tokens -/

/-- C8 counterexample: in the comparison
`כמה מכולות בינואר 2020 לעומת פברואר` the second pair's year token is
omitted, and with the current date 2026-10-12 the engine resolves it to
the FIRST pair's year 2020, not the current year 2026. -/
theorem c8_counterexample :
    matchIntent ⟨2026, 10, 12⟩ "כמה מכולות בינואר 2020 לעומת פברואר" =
      some ⟨"containers_count_comparison", .comparison 1 2020 2 2020⟩ ∧
    (Date.mk 2026 10 12).year ≠ 2020 := ⟨rfl, by decide⟩

/-- C8 (amended): a single month/year pair with an omitted year token
resolves to the current year; in a comparison, an omitted SECOND year
token resolves to the first pair's year (current year only when the first
pair's year is itself the current year). -/
theorem c8_omitted_year_defaults (today : Date) :
    (∀ (g : Groups) (mp : MonthParams),
      clean_token (groupGetD g "year") = "" →
      parse_month today g = some mp → mp.year = today.year) ∧
    (100 ≤ today.year →
      ∀ (g : Groups) (cp : ComparisonParams),
      clean_token (groupGetD g "year2") = "" →
      parse_comparison today g = some cp → cp.year2 = cp.year1) := by
  constructor
  · intro g mp hyt hp
    simp only [parse_month, hyt] at hp
    split at hp
    · cases hp
    · split at hp
      · cases hp
      · simp only [bne_self_eq_false] at hp
        injection hp with h1
        rw [← h1]
        simp
  · intro h100 g cp hy2 hp
    simp only [parse_comparison, hy2] at hp
    cases hm1 : parse_month today
        [("month_name", clean_token (groupGetD g "month1_name")),
         ("year", clean_token (groupGetD g "year1"))] with
    | none => rw [hm1] at hp; cases hp
    | some m1 =>
      rw [hm1] at hp
      dsimp only at hp
      have hyy : (if (("" : String) == "") = true then natToStr m1.year
          else "") = natToStr m1.year := rfl
      rw [hyy] at hp
      cases hm2 : parse_month today
          [("month_name", clean_token (groupGetD g "month2_name")),
           ("year", natToStr m1.year)] with
      | none => rw [hm2] at hp; cases hp
      | some m2 =>
        rw [hm2] at hp
        injection hp with h1
        rw [← h1]
        exact (parse_month_natToStr_year today _ m1.year
          (parse_month_year_ge today h100 _ m1 hm1) m2 hm2).trans rfl

/-- C8 witness: with the current date 2026-10-12, a bare `ינואר` resolves
to year 2026, and `ינואר 2020 לעומת פברואר` (second year omitted) gives
`year2 = year1`. -/
theorem c8_omitted_year_defaults_witness :
    (MonthParams.mk 1 2026).year = (Date.mk 2026 10 12).year ∧
    (ComparisonParams.mk 1 2020 2 2020).year2 =
      (ComparisonParams.mk 1 2020 2 2020).year1 :=
  ⟨(c8_omitted_year_defaults ⟨2026, 10, 12⟩).1 [("month_name", "ינואר")]
      ⟨1, 2026⟩ rfl rfl,
   (c8_omitted_year_defaults ⟨2026, 10, 12⟩).2 (by decide)
      [("month1_name", "ינואר"), ("year1", "2020"),
       ("month2_name", "פברואר")] ⟨1, 2020, 2, 2020⟩ rfl rfl⟩

/- ### First-match-wins machinery -/

/-- On empty (stripped) input every rule yields nothing. -/
theorem intentRules_empty (today : Date) :
    ∀ f ∈ intentRules today, f "" = none := by
  intro f hf
  simp only [intentRules, List.mem_cons, List.not_mem_nil, or_false] at hf
  rcases hf with rfl | rfl | rfl | rfl | rfl | rfl | rfl | rfl | rfl |
    rfl | rfl <;> rfl

/-- `firstSome` returns the result of the `i`-th rule when every earlier
rule yields nothing. -/
theorem firstSome_eq_of_get (fs : List (String → Option IntentResult))
    (s : String) :
    ∀ (i : Nat) (f : String → Option IntentResult) (r : IntentResult),
      fs.get? i = some f → f s = some r →
      (∀ j g, j < i → fs.get? j = some g → g s = none) →
      firstSome fs s = some r := by
  induction fs with
  | nil => intro i f r h; simp at h
  | cons f0 rest ih =>
    intro i f r hi hf hprev
    cases i with
    | zero =>
      injection hi with hi
      subst hi
      simp [firstSome, hf]
    | succ j =>
      have h0 : f0 s = none := hprev 0 f0 (Nat.succ_pos j) rfl
      simp only [firstSome, h0]
      exact ih j f r hi hf
        (fun k g hk hg => hprev (k + 1) g (by omega) hg)

/- ### Claim C3: fixed rule order, specific before generic -/

/-- C3: rule evaluation is first-match-wins over the fixed ordered list:
whenever the `i`-th rule produces a command on the stripped input and all
earlier rules produce nothing, `match` returns exactly that command and
never consults later rules — in particular (at `i = 0`) any input matched
by the procedure/policy rule resolves to `procedure_question`, never to
the generic container fallback that sits last. -/
theorem c3_first_match_wins (today : Date) (text : String) (i : Nat)
    (f : String → Option IntentResult) (r : IntentResult)
    (hi : (intentRules today).get? i = some f)
    (hf : f (pyStrip text) = some r)
    (hprev : ∀ j g, j < i → (intentRules today).get? j = some g →
      g (pyStrip text) = none) :
    matchIntent today text = some r := by
  have hmem : f ∈ intentRules today := List.get?_mem hi
  have hne : pyStrip text ≠ "" := by
    intro h
    rw [h, intentRules_empty today f hmem] at hf
    cases hf
  simp only [matchIntent]
  rw [if_neg (by simp [hne])]
  exact firstSome_eq_of_get _ _ i f r hi hf hprev

/-- C3 witness: `מה נהלים לגבי מכולות` matches both the policy rule and
the generic container rule, and resolves to the policy command. -/
theorem c3_first_match_wins_witness :
    matchIntent ⟨2026, 10, 12⟩ "מה נהלים לגבי מכולות" =
      some ⟨"procedure_question", .question "מה נהלים לגבי מכולות"⟩ ∧
    ruleGeneric (pyStrip "מה נהלים לגבי מכולות") =
      some ⟨"llm_analysis", .question "מה נהלים לגבי מכולות"⟩ := by
  refine ⟨c3_first_match_wins ⟨2026, 10, 12⟩ "מה נהלים לגבי מכולות" 0
    ruleProcedure ⟨"procedure_question", .question "מה נהלים לגבי מכולות"⟩
    rfl rfl ?_, rfl⟩
  intro j g hj
  exact absurd hj (Nat.not_lt_zero j)

/- ### Claim C6: totality and parameter-failure fallthrough -/

/-- C6: for every input and injected current date, `match` is a total
function returning one command or nothing (the embedding never raises);
and a rule whose pattern matches textually but whose parameter extraction
(`_parse_month`, `_parse_range`, `_parse_comparison`) fails contributes
nothing, so evaluation continues with the next rule. -/
theorem c6_resolve_total_and_fallthrough :
    (∀ (today : Date) (text : String),
      matchIntent today text = none ∨
        ∃ r, matchIntent today text = some r) ∧
    (∀ (today : Date) (p : RE) (s : String) (m : MatchRes),
      reSearch p s = some m → parse_month today m.groups = none →
      monthlyStep today p s = none) ∧
    (∀ (name : String) (p : RE) (s : String) (m : MatchRes),
      reSearch p s = some m → parse_range m.groups = none →
      rangeStep name p s = none) ∧
    (∀ (today : Date) (p : RE) (s : String) (m : MatchRes),
      reSearch p s = some m → parse_comparison today m.groups = none →
      comparisonStep today p s = none) := by
  refine ⟨fun today text => ?_, fun today p s m hs hp => ?_,
    fun name p s m hs hp => ?_, fun today p s m hs hp => ?_⟩
  · cases h : matchIntent today text with
    | none => exact Or.inl rfl
    | some r => exact Or.inr ⟨r, rfl⟩
  · simp [monthlyStep, hs, hp]
  · simp [rangeStep, hs, hp]
  · simp [comparisonStep, hs, hp]

/-- C6 witness: in `כמה מכולות בחודש ינור 2024` the fifth monthly pattern
matches textually but `ינור` is not a recognized month, so that rule
yields nothing and resolution falls through to the generic rule. -/
theorem c6_resolve_total_and_fallthrough_witness :
    monthlyStep ⟨2026, 10, 12⟩ (MONTHLY_CONTAINER_PATTERNS.getD 4 RE.eps)
      "כמה מכולות בחודש ינור 2024" = none ∧
    matchIntent ⟨2026, 10, 12⟩ "כמה מכולות בחודש ינור 2024" =
      some ⟨"llm_analysis", .question "כמה מכולות בחודש ינור 2024"⟩ :=
  ⟨c6_resolve_total_and_fallthrough.2.1 ⟨2026, 10, 12⟩
    (MONTHLY_CONTAINER_PATTERNS.getD 4 RE.eps) "כמה מכולות בחודש ינור 2024"
    ⟨0, 26, [("month_name", "ינור"), ("year", "2024")]⟩ rfl rfl, rfl⟩
